import Mathlib

/-!
Verification development for the iTerm2 multi-server daemon
(sources/iTermFileDescriptorMultiServer.c).

The embedding is shallow and functional.  The child registry (the C array
`children` with `numberOfChildren`) is a `List Child`.  Handlers are pure
functions from the registry and the request to the new registry together with
the messages written to the client and the C return code.  External effects
that the daemon only observes (the outcome of `forkpty`, of `waitpid`, and the
success or failure of `sendmsg`/encode calls) enter as explicit oracle
parameters, so each source branch on such an outcome is mirrored by a branch
on the oracle.
-/

namespace MultiServer

/-- Launch request payload (`iTermMultiServerRequestLaunch`): path, argv, envp,
working directory, cell and pixel dimensions, UTF-8 flag and the
client-provided unique id. -/
structure LaunchRequest where
  path : String
  argv : List String
  envp : List String
  pwd : String
  columns : Int
  rows : Int
  pixelWidth : Int
  pixelHeight : Int
  isUTF8 : Bool
  uniqueId : Nat
deriving DecidableEq, Inhabited

/-- Child record, mirroring `iTermMultiServerChild` (source lines 55-63).
`messageWithLaunchRequest` keeps the launch request that created the child. -/
structure Child where
  messageWithLaunchRequest : LaunchRequest
  pid : Int
  terminated : Bool
  willTerminate : Bool
  masterFd : Int
  status : Int
  tty : String
deriving DecidableEq, Inhabited

/-- `GetNumberOfReportableChildren` (lines 77-86): counts the records whose
`willTerminate` flag is clear. -/
def GetNumberOfReportableChildren (children : List Child) : Nat :=
  children.countP (fun c => !c.willTerminate)

/-- `AddChild` (lines 94-134): appends a record holding a copy of the launch
request (the encode/parse round trip at lines 114-122 is asserted to succeed,
so the stored copy equals the request), the master fd, the forked pid, both
flags clear, status 0 and a copy of the tty string. -/
def AddChild (children : List Child) (launch : LaunchRequest) (masterFd : Int)
    (tty : String) (pid : Int) : List Child :=
  children ++ [{ messageWithLaunchRequest := launch
                 pid := pid
                 terminated := false
                 willTerminate := false
                 masterFd := masterFd
                 status := 0
                 tty := tty }]

/-- `GetChildIndexByPID` (lines 472-479): index of the first record with the
given pid, scanning forward; `none` when no record matches.  Records flagged
`willTerminate` are NOT skipped by this lookup. -/
def GetChildIndexByPID (children : List Child) (pid : Int) : Option Nat :=
  children.findIdx? (fun c => c.pid == pid)

/-- `RemoveChild` (lines 146-164): delete the record at an index and compact
the array. -/
def RemoveChild (children : List Child) (i : Nat) : List Child :=
  children.eraseIdx i

/-- Wait response payload (`iTermMultiServerResponseWait`): pid, status,
error number. -/
structure WaitResponse where
  pid : Int
  status : Int
  errorNumber : Int
deriving DecidableEq, Inhabited

/-- Observable outcome of `HandleWait`: the registry afterwards, the response
frame actually sent (none when encode or send failed), the C return code, and
the list of file descriptors passed to `close`. -/
structure WaitOutcome where
  children : List Child
  response : Option WaitResponse
  ret : Int
  closedFds : List Int
deriving DecidableEq, Inhabited

/-- The phase of `HandleWait` before encode/send (lines 487-504): computes the
pre-send registry, the `status` and `errorNumber` locals, and the fds closed
in the preemptive-removal branch.  The result tuple is
(registry, status, errorNumber, closed fds). -/
def WaitMutatePhase (children : List Child) (childIndex : Option Nat)
    (removePreemptively : Bool) : List Child × Int × Int × List Int :=
  match childIndex with
  | none => (children, 0, -1, [])
  | some i =>
    let c := children.getD i default
    if !c.terminated then
      if removePreemptively then
        (children.set i { c with willTerminate := true, masterFd := -1 },
         0, 1, [c.masterFd])
      else
        (children, 0, -2, [])
    else
      (children, c.status, 0, [])

/-- `HandleWait` (lines 481-539).  After the mutation phase the response is
encoded and sent; on encode failure (line 516) or send failure (line 531) the
handler returns -1 without removing anything.  Only after a successful send,
and only when `errorNumber` is 0, is the record removed (lines 535-537).
The `none` arm of the final match is unreachable: when no record matched,
`errorNumber` is -1. -/
def HandleWait (children : List Child) (pid : Int) (removePreemptively : Bool)
    (encodeOk sendOk : Bool) : WaitOutcome :=
  let m := WaitMutatePhase children (GetChildIndexByPID children pid) removePreemptively
  if !encodeOk then ⟨m.1, none, -1, m.2.2.2⟩
  else if !sendOk then ⟨m.1, none, -1, m.2.2.2⟩
  else
    ⟨(if m.2.2.1 = 0 then
        match GetChildIndexByPID children pid with
        | some i => RemoveChild m.1 i
        | none => m.1
      else m.1),
     some ⟨pid, m.2.1, m.2.2.1⟩, 0, m.2.2.2⟩

/-- C1: with encode and send succeeding, the Wait handler follows exactly the
case analysis of the spec: no matching record gives error -1 and an unchanged
registry; a live record with remove_preemptively clear gives error -2 and an
unchanged registry; a live record with remove_preemptively set is flagged
will_terminate, its master fd is closed and set to -1, the response is
status 0 / error 1, and the record is kept; a terminated record yields the
recorded status with error 0 and is removed. -/
theorem handleWait_case_analysis (children : List Child) (pid : Int) (rp : Bool) :
    HandleWait children pid rp true true =
      match GetChildIndexByPID children pid with
      | none => ⟨children, some ⟨pid, 0, -1⟩, 0, []⟩
      | some i =>
        let c := children.getD i default
        if c.terminated then
          ⟨RemoveChild children i, some ⟨pid, c.status, 0⟩, 0, []⟩
        else if rp then
          ⟨children.set i { c with willTerminate := true, masterFd := -1 },
           some ⟨pid, 0, 1⟩, 0, [c.masterFd]⟩
        else
          ⟨children, some ⟨pid, 0, -2⟩, 0, []⟩ := by
  rcases h : GetChildIndexByPID children pid with _ | i
  · simp [HandleWait, WaitMutatePhase, h]
  · simp only [HandleWait, WaitMutatePhase, h]
    generalize children.getD i default = c
    by_cases ht : c.terminated
    · simp [ht]
    · by_cases hr : rp
      · simp [ht, hr]
      · simp [ht, hr]

/-- C5 counterexample: a record with will_terminate set and terminated clear is
NOT invisible to Wait.  A Wait naming its pid (without preemptive removal, with
encode and send succeeding) answers error_number -2, not the error_number -1
that an unmatched pid would produce. -/
theorem handleWait_willTerminate_visible_counterexample :
    (HandleWait
      [{ messageWithLaunchRequest :=
           ⟨"/bin/sleep", ["sleep", "60"], [], "/", 80, 24, 0, 0, true, 7⟩
         pid := 5
         terminated := false
         willTerminate := true
         masterFd := -1
         status := 0
         tty := "ttys002" }] 5 false true true).response = some ⟨5, 0, -2⟩ ∧
    some (⟨5, 0, -2⟩ : WaitResponse) ≠ some ⟨5, 0, -1⟩ := by
  constructor
  · rfl
  · decide

/-- C5 amended: records flagged will_terminate are excluded from reporting
(they never satisfy the reportable predicate), but they remain visible to Wait
requests: the pid lookup matches them and the ordinary case analysis applies,
so a non-preemptive Wait on such a live record answers error_number -2 without
mutating anything, and on such a terminated record answers the recorded status
with error_number 0 and removes it. -/
theorem handleWait_willTerminate_visible (children : List Child) (pid : Int)
    (i : Nat) (h : GetChildIndexByPID children pid = some i)
    (hw : (children.getD i default).willTerminate = true) :
    ((children.getD i default).terminated = false →
      HandleWait children pid false true true =
        ⟨children, some ⟨pid, 0, -2⟩, 0, []⟩) ∧
    ((children.getD i default).terminated = true →
      HandleWait children pid false true true =
        ⟨RemoveChild children i,
         some ⟨pid, (children.getD i default).status, 0⟩, 0, []⟩) ∧
    children.getD i default ∉ children.filter (fun c => !c.willTerminate) := by
  refine ⟨?_, ?_, ?_⟩
  · intro ht
    simp only [HandleWait, WaitMutatePhase, h]
    generalize hc : children.getD i default = c
    rw [hc] at ht
    simp [ht]
  · intro ht
    simp only [HandleWait, WaitMutatePhase, h]
    generalize hc : children.getD i default = c
    rw [hc] at ht
    simp [ht]
  · intro hmem
    have := (List.mem_filter.mp hmem).2
    rw [hw] at this
    simp at this

/-- C5 amended witness: the theorem applied to a concrete one-record registry
holding a live will_terminate child with pid 5. -/
theorem handleWait_willTerminate_visible_witness :
    HandleWait
      [{ messageWithLaunchRequest :=
           ⟨"/bin/sleep", ["sleep", "61"], [], "/tmp", 80, 24, 0, 0, true, 8⟩
         pid := 5
         terminated := false
         willTerminate := true
         masterFd := -1
         status := 0
         tty := "ttys003" }] 5 false true true =
      ⟨[{ messageWithLaunchRequest :=
            ⟨"/bin/sleep", ["sleep", "61"], [], "/tmp", 80, 24, 0, 0, true, 8⟩
          pid := 5
          terminated := false
          willTerminate := true
          masterFd := -1
          status := 0
          tty := "ttys003" }], some ⟨5, 0, -2⟩, 0, []⟩ :=
  (handleWait_willTerminate_visible _ 5 0 (by decide) (by decide)).1 (by decide)

/-- C10: for a matched, terminated record, a failure of encode or of send makes
the Wait handler return -1 with the registry unchanged and no response sent;
the removal happens only on the successful-send path, where a retried Wait
still finds the record and answers the recorded status with error_number 0. -/
theorem handleWait_remove_only_after_send (children : List Child) (pid : Int)
    (rp : Bool) (i : Nat) (encodeOk sendOk : Bool)
    (h : GetChildIndexByPID children pid = some i)
    (ht : (children.getD i default).terminated = true)
    (hfail : encodeOk = false ∨ sendOk = false) :
    HandleWait children pid rp encodeOk sendOk = ⟨children, none, -1, []⟩ ∧
    (HandleWait children pid rp true true).children = RemoveChild children i ∧
    (HandleWait children pid rp true true).response =
      some ⟨pid, (children.getD i default).status, 0⟩ := by
  have hmut : WaitMutatePhase children (some i) rp =
      (children, (children.getD i default).status, 0, []) := by
    simp only [WaitMutatePhase]
    generalize hc : children.getD i default = c
    rw [hc] at ht
    simp [ht]
  refine ⟨?_, ?_, ?_⟩
  · rcases hfail with hf | hf <;>
      simp [HandleWait, h, hmut, hf]
  · simp [HandleWait, h, hmut]
  · simp [HandleWait, h, hmut]

/-- A concrete terminated record with pid 7 and recorded status 9, used to
witness the failed-send behavior of the Wait handler. -/
def terminatedSampleChild : Child where
  messageWithLaunchRequest := ⟨"/bin/true", ["true"], [], "/", 80, 24, 0, 0, true, 9⟩
  pid := 7
  terminated := true
  willTerminate := false
  masterFd := -1
  status := 9
  tty := "ttys004"

/-- C10 witness: on the one-record registry holding `terminatedSampleChild`,
an encode failure leaves the registry unchanged with return code -1, and the
retried Wait (encode and send succeeding) removes the record and reports
status 9 with error_number 0. -/
theorem handleWait_remove_only_after_send_witness :
    HandleWait [terminatedSampleChild] 7 false false true =
      ⟨[terminatedSampleChild], none, -1, []⟩ ∧
    (HandleWait [terminatedSampleChild] 7 false true true).children =
      RemoveChild [terminatedSampleChild] 0 ∧
    (HandleWait [terminatedSampleChild] 7 false true true).response =
      some ⟨7, 9, 0⟩ :=
  handleWait_remove_only_after_send _ 7 false 0 false true (by decide)
    (by decide) (Or.inl rfl)

/-- Outcome of one pass of `WaitForAllProcesses`: the registry afterwards, the
pids for which a Termination message was delivered, and the C return code. -/
structure ReapOutcome where
  children : List Child
  terminations : List Int
  ret : Int
deriving DecidableEq, Inhabited

/-- `WaitForAllProcesses` (lines 373-404), after the self-pipe drain (the drain
is pure I/O and does not touch the registry).  `reap` is the non-blocking
`waitpid` oracle: for a pid it yields the wait status when the child has
exited, else none (`WaitPidNoHang` returning 0).  `termSendOk` tells whether
`ReportTermination` to the client succeeds for a given pid.  The scan visits
records in order; a record already terminated is skipped; a reaped record
stores the status and sets `terminated`; a Termination message is attempted
only when `willTerminate` is clear and `connectionFd` is nonnegative, and a
send failure returns -1 at once, leaving the remaining records unvisited. -/
def WaitForAllProcesses (reap : Int → Option Int) (connectionFd : Int)
    (termSendOk : Int → Bool) : List Child → ReapOutcome
  | [] => ⟨[], [], 0⟩
  | c :: rest =>
    if c.terminated then
      let o := WaitForAllProcesses reap connectionFd termSendOk rest
      ⟨c :: o.children, o.terminations, o.ret⟩
    else
      match reap c.pid with
      | none =>
        let o := WaitForAllProcesses reap connectionFd termSendOk rest
        ⟨c :: o.children, o.terminations, o.ret⟩
      | some st =>
        let c2 : Child := { c with terminated := true, status := st }
        if !c.willTerminate && decide (0 ≤ connectionFd) then
          if termSendOk c.pid then
            let o := WaitForAllProcesses reap connectionFd termSendOk rest
            ⟨c2 :: o.children, c.pid :: o.terminations, o.ret⟩
          else
            ⟨c2 :: rest, [], -1⟩
        else
          let o := WaitForAllProcesses reap connectionFd termSendOk rest
          ⟨c2 :: o.children, o.terminations, o.ret⟩

/-- The per-record effect of one reaper pass: a live record whose pid the
`waitpid` oracle reports as exited becomes terminated with that status. -/
def ReapUpdate (reap : Int → Option Int) (c : Child) : Child :=
  if c.terminated then c
  else
    match reap c.pid with
    | some st => { c with terminated := true, status := st }
    | none => c

/-- A record is reaped in this pass when it was live and the `waitpid` oracle
reports an exit for its pid. -/
def ReapedNow (reap : Int → Option Int) (c : Child) : Bool :=
  !c.terminated && (reap c.pid).isSome

/-- A record reaped in this pass triggers a Termination message exactly when
its `willTerminate` flag is clear. -/
def ReportableReap (reap : Int → Option Int) (c : Child) : Bool :=
  ReapedNow reap c && !c.willTerminate

lemma waitForAllProcesses_success (reap : Int → Option Int) (fd : Int)
    (termSendOk : Int → Bool) (hfd : 0 ≤ fd) :
    ∀ children : List Child,
      (∀ c ∈ children, ReportableReap reap c = true → termSendOk c.pid = true) →
      WaitForAllProcesses reap fd termSendOk children =
        ⟨children.map (ReapUpdate reap),
         (children.filter (fun c => ReportableReap reap c)).map Child.pid, 0⟩ := by
  intro children
  induction children with
  | nil => intro _; simp [WaitForAllProcesses]
  | cons c rest ih =>
    intro hall
    have hrest : ∀ d ∈ rest, ReportableReap reap d = true → termSendOk d.pid = true :=
      fun d hd => hall d (List.mem_cons_of_mem _ hd)
    by_cases hterm : c.terminated
    · have h1 : ReapUpdate reap c = c := by simp [ReapUpdate, hterm]
      have h2 : ReportableReap reap c = false := by
        simp [ReportableReap, ReapedNow, hterm]
      simp [WaitForAllProcesses, hterm, ih hrest, h1, h2]
    · rcases hr : reap c.pid with _ | st
      · have h1 : ReapUpdate reap c = c := by simp [ReapUpdate, hterm, hr]
        have h2 : ReportableReap reap c = false := by
          simp [ReportableReap, ReapedNow, hr]
        simp [WaitForAllProcesses, hterm, hr, ih hrest, h1, h2]
      · have h1 : ReapUpdate reap c = { c with terminated := true, status := st } := by
          simp [ReapUpdate, hterm, hr]
        by_cases hw : c.willTerminate
        · have h2 : ReportableReap reap c = false := by
            simp [ReportableReap, hw]
          simp [WaitForAllProcesses, hterm, hr, hw, ih hrest, h1, h2]
        · have h2 : ReportableReap reap c = true := by
            simp [ReportableReap, ReapedNow, hterm, hr, hw]
          have hsend : termSendOk c.pid = true :=
            hall c (List.mem_cons_self _ _) h2
          simp [WaitForAllProcesses, hterm, hr, hw, hfd, hsend, ih hrest, h1, h2]

lemma waitForAllProcesses_failure (reap : Int → Option Int) (fd : Int)
    (termSendOk : Int → Bool) (hfd : 0 ≤ fd) :
    ∀ children : List Child,
      (∃ c ∈ children, ReportableReap reap c = true ∧ termSendOk c.pid = false) →
      (WaitForAllProcesses reap fd termSendOk children).ret = -1 := by
  intro children
  induction children with
  | nil => rintro ⟨c, hc, -⟩; simp at hc
  | cons c rest ih =>
    rintro ⟨d, hd, hq, hs⟩
    rcases List.mem_cons.mp hd with rfl | hd2
    · have hterm : d.terminated = false := by
        have := hq
        simp only [ReportableReap, ReapedNow, Bool.and_eq_true] at this
        simpa using this.1.1
      rcases hsome : reap d.pid with _ | st
      · exfalso
        simp [ReportableReap, ReapedNow, hsome] at hq
      · have hw : d.willTerminate = false := by
          have := hq
          simp only [ReportableReap, Bool.and_eq_true] at this
          simpa using this.2
        simp [WaitForAllProcesses, hterm, hsome, hw, hfd, hs]
    · have htail : (WaitForAllProcesses reap fd termSendOk rest).ret = -1 :=
        ih ⟨d, hd2, hq, hs⟩
      by_cases hterm : c.terminated
      · simp [WaitForAllProcesses, hterm, htail]
      · rcases hsome : reap c.pid with _ | st
        · simp [WaitForAllProcesses, hterm, hsome, htail]
        · by_cases hw : c.willTerminate
          · simp [WaitForAllProcesses, hterm, hsome, hw, htail]
          · by_cases hsendc : termSendOk c.pid
            · simp [WaitForAllProcesses, hterm, hsome, hw, hfd, hsendc, htail]
            · simp [WaitForAllProcesses, hterm, hsome, hw, hfd, hsendc]

/-- C2: one reaper pass against an attached client (connection fd nonnegative).
If every record reaped in this pass with will_terminate clear has a successful
Termination send, then the pass stores each reaped status and sets terminated
(ReapUpdate on every record), delivers exactly one Termination message per
reaped record with will_terminate clear - none for will_terminate records -
and returns 0.  If some reaped record with will_terminate clear has a failed
send, the pass returns -1, aborting the attached phase. -/
theorem waitForAllProcesses_spec (reap : Int → Option Int) (fd : Int)
    (termSendOk : Int → Bool) (children : List Child) (hfd : 0 ≤ fd) :
    ((∀ c ∈ children, ReportableReap reap c = true → termSendOk c.pid = true) →
      WaitForAllProcesses reap fd termSendOk children =
        ⟨children.map (ReapUpdate reap),
         (children.filter (fun c => ReportableReap reap c)).map Child.pid, 0⟩) ∧
    ((∃ c ∈ children, ReportableReap reap c = true ∧ termSendOk c.pid = false) →
      (WaitForAllProcesses reap fd termSendOk children).ret = -1) :=
  ⟨waitForAllProcesses_success reap fd termSendOk hfd children,
   waitForAllProcesses_failure reap fd termSendOk hfd children⟩

/-- A live reportable record with pid 21, used to witness the reaper pass. -/
def reapSampleA : Child where
  messageWithLaunchRequest := ⟨"/bin/cat", ["cat"], [], "/", 80, 24, 0, 0, true, 1⟩
  pid := 21
  terminated := false
  willTerminate := false
  masterFd := 4
  status := 0
  tty := "ttys005"

/-- A live record with will_terminate set and pid 22, used to witness that the
reaper delivers no Termination message for it. -/
def reapSampleB : Child where
  messageWithLaunchRequest := ⟨"/bin/cat", ["cat", "-"], [], "/", 80, 24, 0, 0, true, 2⟩
  pid := 22
  terminated := false
  willTerminate := true
  masterFd := -1
  status := 0
  tty := "ttys006"

/-- The `waitpid` oracle for the C2 witness: both pid 21 and pid 22 have
exited, with statuses 3 and 4. -/
def reapSampleOracle : Int → Option Int := fun p =>
  if p == 21 then some 3 else if p == 22 then some 4 else none

/-- C2 witness: with both sample children exited and all sends succeeding, the
pass marks both terminated and delivers exactly one Termination, for pid 21
only; with the send for pid 21 failing, the pass returns -1. -/
theorem waitForAllProcesses_spec_witness :
    WaitForAllProcesses reapSampleOracle 1 (fun _ => true)
        [reapSampleA, reapSampleB] =
      ⟨[{ reapSampleA with terminated := true, status := 3 },
        { reapSampleB with terminated := true, status := 4 }], [21], 0⟩ ∧
    (WaitForAllProcesses reapSampleOracle 1 (fun _ => false)
        [reapSampleA, reapSampleB]).ret = -1 := by
  constructor
  · have h := (waitForAllProcesses_spec reapSampleOracle 1 (fun _ => true)
      [reapSampleA, reapSampleB] (by decide)).1 (by decide)
    rw [h]
    decide
  · exact (waitForAllProcesses_spec reapSampleOracle 1 (fun _ => false)
      [reapSampleA, reapSampleB] (by decide)).2 ⟨reapSampleA, by decide, by decide, rfl⟩

/-- Protocol version 1 (`iTermMultiServerProtocolVersion1`), the minimum and
only version the daemon supports. -/
def iTermMultiServerProtocolVersion1 : Int := 1

/-- Modelled from the spec: the sentinel `iTermMultiServerProtocolVersionRejected`
is declared in `iTermMultiServerProtocol.h`, which is not among the sources;
the spec only requires it to be distinct from every supported version
(supported versions start at 1), so 0 is used here. -/
def iTermMultiServerProtocolVersionRejected : Int := 0

/-- ReportChild message payload (`iTermMultiServerReportChild`), populated by
`PopulateReportChild` (lines 313-328), plus the master fd that
`ReportChild` (line 347-350) attaches as ancillary data. -/
structure ReportChildMsg where
  isLast : Bool
  pid : Int
  path : String
  argv : List String
  envp : List String
  isUTF8 : Bool
  pwd : String
  terminated : Bool
  tty : String
  attachedFd : Int
deriving DecidableEq, Inhabited

/-- `PopulateReportChild` (lines 313-328): echo the launch record fields, the
pid, the terminated flag, the tty, and the given is_last flag.  The master fd
attachment made by `ReportChild` is recorded in `attachedFd`. -/
def PopulateReportChild (c : Child) (isLast : Bool) : ReportChildMsg where
  isLast := isLast
  pid := c.pid
  path := c.messageWithLaunchRequest.path
  argv := c.messageWithLaunchRequest.argv
  envp := c.messageWithLaunchRequest.envp
  isUTF8 := c.messageWithLaunchRequest.isUTF8
  pwd := c.messageWithLaunchRequest.pwd
  terminated := c.terminated
  tty := c.tty
  attachedFd := c.masterFd

/-- The loop body of `ReportChildren` (lines 413-422).  `total` is
`numberOfReportableChildren`, computed before the loop; `numberSent` counts the
messages sent so far; records flagged `willTerminate` are skipped; the message
for a reportable record carries `is_last` true exactly when it is the
`total`-th message; a send failure returns -1 at once.  The list in the result
holds the messages delivered before any failure. -/
def ReportChildrenLoop (total : Nat) (sendOk : Int → Bool) :
    List Child → Nat → List ReportChildMsg × Int
  | [], _ => ([], 0)
  | c :: rest, numberSent =>
    if c.willTerminate then ReportChildrenLoop total sendOk rest numberSent
    else if sendOk c.pid then
      let r := ReportChildrenLoop total sendOk rest (numberSent + 1)
      (PopulateReportChild c (numberSent + 1 == total) :: r.1, r.2)
    else ([], -1)

/-- `ReportChildren` (lines 408-425): iterates over the registry back to front
(hence the `reverse`), sending one ReportChild message per reportable record. -/
def ReportChildren (sendOk : Int → Bool) (children : List Child) :
    List ReportChildMsg × Int :=
  ReportChildrenLoop (GetNumberOfReportableChildren children) sendOk
    children.reverse 0

/-- Handshake response payload (`iTermMultiServerResponseHandshake`):
negotiated protocol version, number of reportable children, daemon pid. -/
structure HandshakeResponse where
  protocolVersion : Int
  numChildren : Nat
  pid : Int
deriving DecidableEq, Inhabited

/-- `HandleHandshake` (lines 429-468): reject an offered maximum protocol
version below version 1 with an error (no response sent); otherwise send the
handshake reply carrying version 1, the reportable-children count and the
daemon pid, then run `ReportChildren`.  Encode failure (line 449) and send
failure (line 464) also return -1 with no reports. -/
def HandleHandshake (children : List Child) (maximumProtocolVersion : Int)
    (daemonPid : Int) (encodeOk sendOk : Bool) (reportSendOk : Int → Bool) :
    Option HandshakeResponse × List ReportChildMsg × Int :=
  if maximumProtocolVersion < iTermMultiServerProtocolVersion1 then (none, [], -1)
  else if !encodeOk then (none, [], -1)
  else if !sendOk then (none, [], -1)
  else
    let r := ReportChildren reportSendOk children
    (some ⟨iTermMultiServerProtocolVersion1,
           GetNumberOfReportableChildren children, daemonPid⟩, r.1, r.2)

lemma reportChildrenLoop_all (total : Nat) :
    ∀ (l : List Child) (s : Nat),
      s + l.countP (fun c => !c.willTerminate) = total →
      (ReportChildrenLoop total (fun _ => true) l s).2 = 0 ∧
      (ReportChildrenLoop total (fun _ => true) l s).1.length =
        l.countP (fun c => !c.willTerminate) ∧
      (ReportChildrenLoop total (fun _ => true) l s).1.countP (fun m => m.isLast) =
        (if l.countP (fun c => !c.willTerminate) = 0 then 0 else 1) := by
  intro l
  induction l with
  | nil => intro s h; simp [ReportChildrenLoop]
  | cons c rest ih =>
    intro s h
    by_cases hw : c.willTerminate
    · have hcount : (c :: rest).countP (fun c => !c.willTerminate) =
          rest.countP (fun c => !c.willTerminate) := by
        simp [List.countP_cons, hw]
      rw [hcount] at h ⊢
      simpa [ReportChildrenLoop, hw] using ih s h
    · have hcount : (c :: rest).countP (fun c => !c.willTerminate) =
          rest.countP (fun c => !c.willTerminate) + 1 := by
        simp [List.countP_cons, hw]
      rw [hcount] at h ⊢
      have h2 : s + 1 + rest.countP (fun c => !c.willTerminate) = total := by omega
      obtain ⟨hret, hlen, hlast⟩ := ih (s + 1) h2
      refine ⟨?_, ?_, ?_⟩
      · simpa [ReportChildrenLoop, hw] using hret
      · simp [ReportChildrenLoop, hw, hlen]
      · by_cases hz : rest.countP (fun c => !c.willTerminate) = 0
        · have hst : s + 1 = total := by omega
          have hbeq : (s + 1 == total) = true := beq_iff_eq.mpr hst
          simp [ReportChildrenLoop, hw, List.countP_cons, hlast, hz, hbeq,
            PopulateReportChild]
        · have hst : s + 1 ≠ total := by omega
          have hbeq : (s + 1 == total) = false := by
            simpa using hst
          simp [ReportChildrenLoop, hw, List.countP_cons, hlast, hz, hbeq,
            PopulateReportChild]

/-- C6: a successful handshake exchange (offered version at least 1, all sends
succeeding) replies with version 1, the reportable-children count and the
daemon pid, then sends exactly reportable_count() ReportChild messages, of
which exactly one carries is_last = true when that count is at least 1 and
none when it is 0. -/
theorem handleHandshake_report_burst (children : List Child)
    (maximumProtocolVersion daemonPid : Int)
    (hv : iTermMultiServerProtocolVersion1 ≤ maximumProtocolVersion) :
    (HandleHandshake children maximumProtocolVersion daemonPid true true
        (fun _ => true)).1 =
      some ⟨iTermMultiServerProtocolVersion1,
            GetNumberOfReportableChildren children, daemonPid⟩ ∧
    (HandleHandshake children maximumProtocolVersion daemonPid true true
        (fun _ => true)).2.1.length = GetNumberOfReportableChildren children ∧
    (HandleHandshake children maximumProtocolVersion daemonPid true true
        (fun _ => true)).2.1.countP (fun m => m.isLast) =
      (if GetNumberOfReportableChildren children = 0 then 0 else 1) ∧
    (HandleHandshake children maximumProtocolVersion daemonPid true true
        (fun _ => true)).2.2 = 0 := by
  have hlt : ¬(maximumProtocolVersion < iTermMultiServerProtocolVersion1) :=
    not_lt.mpr hv
  have hrev : (children.reverse).countP (fun c => !c.willTerminate) =
      GetNumberOfReportableChildren children := by
    simp [GetNumberOfReportableChildren, List.countP_reverse]
  obtain ⟨hret, hlen, hlast⟩ :=
    reportChildrenLoop_all (GetNumberOfReportableChildren children)
      children.reverse 0 (by simpa using hrev)
  rw [hrev] at hlen hlast
  refine ⟨?_, ?_, ?_, ?_⟩ <;>
    simp [HandleHandshake, hlt, ReportChildren, hret, hlen, hlast]

/-- A reportable live child with pid 31, used to witness the handshake burst. -/
def handshakeSampleA : Child where
  messageWithLaunchRequest := ⟨"/bin/sh", ["sh"], [], "/", 80, 24, 0, 0, true, 3⟩
  pid := 31
  terminated := false
  willTerminate := false
  masterFd := 5
  status := 0
  tty := "ttys007"

/-- A will_terminate child with pid 32, excluded from the handshake burst. -/
def handshakeSampleB : Child where
  messageWithLaunchRequest := ⟨"/bin/sh", ["sh", "-l"], [], "/", 80, 24, 0, 0, true, 4⟩
  pid := 32
  terminated := false
  willTerminate := true
  masterFd := -1
  status := 0
  tty := "ttys008"

/-- C6 witness: on a registry with one reportable and one will_terminate child
and an offered version of 1, the handshake replies with one reportable child
and the burst is a single ReportChild message carrying is_last = true. -/
theorem handleHandshake_report_burst_witness :
    (HandleHandshake [handshakeSampleA, handshakeSampleB] 1 99 true true
        (fun _ => true)).1 = some ⟨1, 1, 99⟩ ∧
    (HandleHandshake [handshakeSampleA, handshakeSampleB] 1 99 true true
        (fun _ => true)).2.1.length = 1 ∧
    (HandleHandshake [handshakeSampleA, handshakeSampleB] 1 99 true true
        (fun _ => true)).2.1.countP (fun m => m.isLast) = 1 ∧
    (HandleHandshake [handshakeSampleA, handshakeSampleB] 1 99 true true
        (fun _ => true)).2.2 = 0 := by
  obtain ⟨h1, h2, h3, h4⟩ :=
    handleHandshake_report_burst [handshakeSampleA, handshakeSampleB] 1 99
      (by decide)
  exact ⟨h1, h2, h3, h4⟩

/-- Outcome of the `forkpty` primitive, which the daemon only observes: the
returned pid (-1 on failure, 0 in the child, the child pid in the parent), the
master fd stored through the out parameter, and the slave tty name.  On
failure `forkpty` leaves the out parameter untouched, so `fd` then holds the
indeterminate value of the uninitialized local `fd` of `Launch`. -/
structure ForkPtyResult where
  pid : Int
  fd : Int
  ttyName : String
deriving DecidableEq, Inhabited

/-- `Launch` (lines 168-199), parent side, returning (master fd, error).
The source tests `forkState->pid == 1` - not -1 - as the failure sentinel
(line 191), so a genuine `forkpty` failure (pid -1) is NOT detected: the
function falls through to the success path and returns the indeterminate
`fd`.  The child branch (pid 0) execs and never returns, so it is not
modeled. -/
def Launch (fork : ForkPtyResult) (errnoValue : Int) : Int × Int :=
  if fork.pid = 1 then (-1, errnoValue) else (fork.fd, 0)

/-- Launch response payload (`iTermMultiServerResponseLaunch`): status, pid,
unique id, tty. -/
structure LaunchResponse where
  status : Int
  pid : Int
  uniqueId : Nat
  tty : String
deriving DecidableEq, Inhabited

/-- Observable outcome of `HandleLaunchRequest`: the registry afterwards, the
response frame actually sent, the fd attached to it as ancillary data, and the
C return code (0 on success, 1 on send failure, -1 on encode failure). -/
structure LaunchOutcome where
  children : List Child
  response : Option LaunchResponse
  attachedFd : Option Int
  ret : Int
deriving DecidableEq, Inhabited

/-- `SendLaunchResponse` (lines 201-244): encode the response; on encode
failure return -1.  When `masterFd` is nonnegative send it as ancillary data
with the frame, otherwise send the frame alone.  Returns `result == -1`,
i.e. 1 when the send failed and 0 when it succeeded. -/
def SendLaunchResponse (status pid : Int) (masterFd : Int) (tty : String)
    (uniqueId : Nat) (encodeOk sendOk : Bool) :
    Option LaunchResponse × Option Int × Int :=
  if !encodeOk then (none, none, -1)
  else if 0 ≤ masterFd then
    if sendOk then (some ⟨status, pid, uniqueId, tty⟩, some masterFd, 0)
    else (none, none, 1)
  else
    if sendOk then (some ⟨status, pid, uniqueId, tty⟩, none, 0)
    else (none, none, 1)

/-- `HandleLaunchRequest` (lines 246-275): run `Launch`; when the returned
master fd is negative, send a failure response with status -1, pid 0 and no
fd, adding nothing; otherwise FIRST add the child to the registry (line 268),
THEN send the success response with the master fd attached (lines 269-274). -/
def HandleLaunchRequest (children : List Child) (launch : LaunchRequest)
    (fork : ForkPtyResult) (errnoValue : Int) (encodeOk sendOk : Bool) :
    LaunchOutcome :=
  let masterFd := (Launch fork errnoValue).1
  if masterFd < 0 then
    let s := SendLaunchResponse (-1) 0 (-1) "" launch.uniqueId encodeOk sendOk
    ⟨children, s.1, s.2.1, s.2.2⟩
  else
    let children2 := AddChild children launch masterFd fork.ttyName fork.pid
    let s := SendLaunchResponse 0 fork.pid masterFd fork.ttyName
      launch.uniqueId encodeOk sendOk
    ⟨children2, s.1, s.2.1, s.2.2⟩

/-- C3 failing input: `forkpty` fails (pid -1) and the uninitialized local fd
happens to hold 3.  Because `Launch` tests pid == 1 instead of pid == -1, the
daemon takes the success path: it ADDS a record with pid -1 to the registry
and sends a response with status 0, pid -1 and fd 3 attached - not the
status -1 / pid 0 / no-fd / no-record outcome the spec requires for a launch
failure. -/
theorem handleLaunchRequest_forkpty_failure_eval :
    HandleLaunchRequest []
      ⟨"/bin/true", ["true"], [], "/", 80, 24, 0, 0, true, 42⟩
      ⟨-1, 3, ""⟩ 35 true true =
      ⟨[{ messageWithLaunchRequest :=
            ⟨"/bin/true", ["true"], [], "/", 80, 24, 0, 0, true, 42⟩
          pid := -1
          terminated := false
          willTerminate := false
          masterFd := 3
          status := 0
          tty := "" }],
       some ⟨0, -1, 42, ""⟩, some 3, 0⟩ := by
  decide

/-- C7: for a successful fork (parent pid positive, and in particular not the
buggy sentinel 1, master fd nonnegative), the child is inserted into the
registry - a copy of the launch request, the master fd, the tty and the pid,
with both flags clear - for EVERY encode/send outcome, so a failed response
send still retains the record; and when encode and send succeed the response
carries status 0, the child pid, the unique id and the tty, with the master
fd attached as ancillary data. -/
theorem handleLaunchRequest_insert_before_send (children : List Child)
    (launch : LaunchRequest) (fork : ForkPtyResult) (errnoValue : Int)
    (encodeOk sendOk : Bool) (hpid : 0 < fork.pid) (hpid1 : fork.pid ≠ 1)
    (hfd : 0 ≤ fork.fd) :
    (HandleLaunchRequest children launch fork errnoValue encodeOk sendOk).children =
      AddChild children launch fork.fd fork.ttyName fork.pid ∧
    (HandleLaunchRequest children launch fork errnoValue true true).response =
      some ⟨0, fork.pid, launch.uniqueId, fork.ttyName⟩ ∧
    (HandleLaunchRequest children launch fork errnoValue true true).attachedFd =
      some fork.fd ∧
    (HandleLaunchRequest children launch fork errnoValue true true).ret = 0 := by
  have hL : Launch fork errnoValue = (fork.fd, 0) := by
    simp [Launch, hpid1]
  have hnl : ¬(fork.fd < 0) := not_lt.mpr hfd
  refine ⟨?_, ?_, ?_, ?_⟩ <;>
    simp [HandleLaunchRequest, hL, hnl, SendLaunchResponse, hfd]

/-- C7 witness: a successful fork with pid 12 and master fd 6; with the send
failing the record is still added, and with the send succeeding the response
carries status 0, pid 12, unique id 8 and tty ttys009 with fd 6 attached. -/
theorem handleLaunchRequest_insert_before_send_witness :
    (HandleLaunchRequest []
      ⟨"/bin/cat", ["cat"], [], "/var", 80, 24, 0, 0, true, 8⟩
      ⟨12, 6, "ttys009"⟩ 0 true false).children =
      AddChild [] ⟨"/bin/cat", ["cat"], [], "/var", 80, 24, 0, 0, true, 8⟩
        6 "ttys009" 12 ∧
    (HandleLaunchRequest []
      ⟨"/bin/cat", ["cat"], [], "/var", 80, 24, 0, 0, true, 8⟩
      ⟨12, 6, "ttys009"⟩ 0 true true).response = some ⟨0, 12, 8, "ttys009"⟩ ∧
    (HandleLaunchRequest []
      ⟨"/bin/cat", ["cat"], [], "/var", 80, 24, 0, 0, true, 8⟩
      ⟨12, 6, "ttys009"⟩ 0 true true).attachedFd = some 6 ∧
    (HandleLaunchRequest []
      ⟨"/bin/cat", ["cat"], [], "/var", 80, 24, 0, 0, true, 8⟩
      ⟨12, 6, "ttys009"⟩ 0 true true).ret = 0 :=
  handleLaunchRequest_insert_before_send []
    ⟨"/bin/cat", ["cat"], [], "/var", 80, 24, 0, 0, true, 8⟩
    ⟨12, 6, "ttys009"⟩ 0 true false (by decide) (by decide) (by decide)

/-- One parsed client request (`iTermMultiServerClientOriginatedMessage`):
Handshake, Launch, Wait, or one of the server-originated tags that the
dispatcher logs and ignores when received from a client. -/
inductive ClientRequest where
  | handshake (maximumProtocolVersion : Int)
  | launch (request : LaunchRequest)
  | wait (pid : Int) (removePreemptively : Bool)
  | termination
  | reportChild
deriving DecidableEq

/-- `ReadAndHandleRequest` (lines 570-597): a read or parse failure returns -1
at once (line 573).  Otherwise the request is dispatched; the handler result
is stored in the local `result` (lines 577-594), but line 596 returns the
constant 0, DISCARDING `result`.  The returned pair is the registry afterwards
and the return code of `ReadAndHandleRequest`. -/
def ReadAndHandleRequest (children : List Child) (readOk : Bool)
    (request : ClientRequest) (daemonPid : Int) (fork : ForkPtyResult)
    (errnoValue : Int) (encodeOk sendOk : Bool) (reportSendOk : Int → Bool) :
    List Child × Int :=
  if !readOk then (children, -1)
  else
    let afterHandler : List Child × Int :=
      match request with
      | .handshake v =>
        (children,
         (HandleHandshake children v daemonPid encodeOk sendOk reportSendOk).2.2)
      | .wait p r =>
        let o := HandleWait children p r encodeOk sendOk
        (o.children, o.ret)
      | .launch lr =>
        let o := HandleLaunchRequest children lr fork errnoValue encodeOk sendOk
        (o.children, o.ret)
      | .termination => (children, 0)
      | .reportChild => (children, 0)
    (afterHandler.1, 0)

/-- The `readFd`-readable branch of one `SelectLoop` iteration
(lines 652-662): run one dispatch cycle; when it reports failure, first run a
silent reaper pass (connection fd -1) if the reaper pipe is also readable,
then leave the attached phase (the `break`).  The Bool in the result is true
when the attached phase is left. -/
def SelectLoopReadStep (children : List Child) (reap : Int → Option Int)
    (chldReady : Bool) (readOk : Bool) (request : ClientRequest)
    (daemonPid : Int) (fork : ForkPtyResult) (errnoValue : Int)
    (encodeOk sendOk : Bool) (reportSendOk termSendOk : Int → Bool) :
    List Child × Bool :=
  let r := ReadAndHandleRequest children readOk request daemonPid fork
    errnoValue encodeOk sendOk reportSendOk
  if r.2 ≠ 0 then
    if chldReady then
      ((WaitForAllProcesses reap (-1) termSendOk r.1).children, true)
    else (r.1, true)
  else (r.1, false)

/-- C4 failing input: a well-read Handshake request offering maximum protocol
version 0 (below the daemon minimum 1).  `HandleHandshake` reports failure
(-1), yet `ReadAndHandleRequest` returns 0 because line 596 discards the
handler result, so the select loop does NOT leave the attached phase. -/
theorem readAndHandleRequest_discards_handler_failure_eval :
    (HandleHandshake [] 0 100 true true (fun _ => true)).2.2 = -1 ∧
    ReadAndHandleRequest [] true (.handshake 0) 100 ⟨2, 3, "t"⟩ 0 true true
      (fun _ => true) = ([], 0) ∧
    (SelectLoopReadStep [] (fun _ => none) false true (.handshake 0) 100
      ⟨2, 3, "t"⟩ 0 true true (fun _ => true) (fun _ => true)).2 = false := by
  refine ⟨?_, ?_, ?_⟩ <;> decide

/-- Observable outcome of `AcceptAndReject`: the registry afterwards (the
function never touches it), the handshake frames sent to the intruding
connection, and whether that connection was closed. -/
structure RejectOutcome where
  children : List Child
  framesSent : List HandshakeResponse
  closedConnection : Bool
deriving DecidableEq, Inhabited

/-- `AcceptAndReject` (lines 601-640): accept the intruding connection (an
accept failure just returns); send it a single Handshake response with
protocol_version Rejected and num_children 0 (the pid field is left at its
zero initialization); close it whether or not encode or send succeeded.  The
child registry and the attached client connection are never touched. -/
def AcceptAndReject (children : List Child) (acceptOk encodeOk sendOk : Bool) :
    RejectOutcome :=
  if !acceptOk then ⟨children, [], false⟩
  else if !encodeOk then ⟨children, [], true⟩
  else if sendOk then
    ⟨children, [⟨iTermMultiServerProtocolVersionRejected, 0, 0⟩], true⟩
  else ⟨children, [], true⟩

/-- C8: a connection accepted while a client is attached is sent exactly one
frame - a Handshake response with protocol_version Rejected and
num_children 0 - and is then closed, and the child registry is returned
unchanged, for every registry. -/
theorem acceptAndReject_single_rejection (children : List Child) :
    AcceptAndReject children true true true =
      ⟨children, [⟨iTermMultiServerProtocolVersionRejected, 0, 0⟩], true⟩ ∧
    (AcceptAndReject children true true true).framesSent.length = 1 ∧
    (AcceptAndReject children true true true).children = children := by
  refine ⟨rfl, rfl, rfl⟩

/-- Actions the daemon performs on the way out of
`iTermFileDescriptorMultiServerRun`. -/
inductive DaemonAction where
  | ranMainLoop
  | unlinkSocket (path : String)
deriving DecidableEq

/-- The self-termination check at the top of the `MainLoop` accept cycle
(line 746): the daemon quits when, detached, no reportable children remain. -/
def MainLoopSelfTerminationCheck (children : List Child) : Bool :=
  GetNumberOfReportableChildren children == 0

/-- `iTermFileDescriptorMultiServerRun` (lines 882-929), modeled from the
point after the GUI-session detach hook: run the bootstrap (its success is the
`bootstrapOk` flag; on failure `MainLoop` is skipped), then unlink the socket
path and return 1 (lines 925-928).  The result is the ordered action trace
and the return value. -/
def iTermFileDescriptorMultiServerRun (path : String) (bootstrapOk : Bool) :
    List DaemonAction × Int :=
  if bootstrapOk then
    ([DaemonAction.ranMainLoop, DaemonAction.unlinkSocket path], 1)
  else
    ([DaemonAction.unlinkSocket path], 1)

/-- `main` (lines 934-942): record the socket path, run the server, return 1
(line 941) - the process exit status. -/
def main (path : String) (bootstrapOk : Bool) : List DaemonAction × Int :=
  ((iTermFileDescriptorMultiServerRun path bootstrapOk).1, 1)

/-- C9: on both exit paths reached from main - fatal bootstrap failure and
return from the main loop (which happens on clean self-termination, i.e. when
the detached check finds zero reportable children) - the process exit status
is 1, never zero, and the last action before termination is unlinking the
socket path.  The self-termination check itself holds exactly when the
reportable count is zero. -/
theorem main_exit_nonzero_and_unlinks (path : String) (bootstrapOk : Bool)
    (children : List Child) :
    (main path bootstrapOk).2 = 1 ∧
    (main path bootstrapOk).2 ≠ 0 ∧
    (main path bootstrapOk).1.getLast? = some (DaemonAction.unlinkSocket path) ∧
    (MainLoopSelfTerminationCheck children = true ↔
      GetNumberOfReportableChildren children = 0) := by
  refine ⟨rfl, ?_, ?_, ?_⟩
  · show (1 : Int) ≠ 0
    decide
  · cases bootstrapOk <;> rfl
  · simp [MainLoopSelfTerminationCheck]

end MultiServer
